import Mathlib

/-!
Shallow embedding of the rendering-composition core of the `three-d` renderer:
the `Particles` geometry (`renderer/geometry/particles.rs`), the `Gm`
geometry-material combinator (`renderer/object/gm.rs`), and the parts of the
graphics-context boundary they depend on.

Conventions of the embedding:
* `f32` scalars are modelled exactly as rationals (`ℚ`); floating-point
  rounding is out of scope.
* GPU buffers are modelled by their CPU-visible contents (lists); buffer
  creation and filling may fail with a resource-allocation error, decided by
  an oracle `GpuEnv` indexed by the call site inside the operation.
* `render_with_material` is modelled as a trace of the GPU commands it issues
  (uniform binds, attribute binds, draw calls) together with an optional error
  that aborts the remaining commands.
-/

namespace ThreeD

/-- Scalars: `f32` modelled exactly over `ℚ`. -/
abbrev Scalar := ℚ

/-- A 3-component vector (`Vec3`). -/
structure Vec3 where
  x : Scalar
  y : Scalar
  z : Scalar
  deriving DecidableEq

/-- A 2-component vector (`Vec2`). -/
structure Vec2 where
  x : Scalar
  y : Scalar
  deriving DecidableEq

/-- `vec3` constructor function, as in the source. -/
def vec3 (x y z : Scalar) : Vec3 := ⟨x, y, z⟩

/-- `vec2` constructor function, as in the source. -/
def vec2 (x y : Scalar) : Vec2 := ⟨x, y⟩

/-- `Mat4`: a 4×4 matrix over the scalar field. -/
abbrev Mat4 := Matrix (Fin 4) (Fin 4) ℚ

/-- `Mat4::identity()`. -/
def Mat4.identity : Mat4 := 1

/-- Modelled from the spec (external math library `SquareMatrix::invert` used
by `set_transformation`): returns the inverse when the determinant is nonzero
and `None` otherwise.  Computed explicitly through the adjugate so that the
definition is executable. -/
def Mat4.invert (m : Mat4) : Option Mat4 :=
  if m.det = 0 then none else some (m.det⁻¹ • m.adjugate)

/-- The inverse computed by `Mat4.invert` is the matrix inverse. -/
theorem Mat4.invert_spec (m : Mat4) (h : m.det ≠ 0) : Mat4.invert m = some m⁻¹ := by
  unfold Mat4.invert
  rw [if_neg h, Matrix.inv_def, Ring.inverse_eq_inv]

/-- `Indices`: index lists of the narrowest fitting integer width
(`U8`/`U16`/`U32`), values modelled as naturals. -/
inductive Indices where
  | U8 : List Nat → Indices
  | U16 : List Nat → Indices
  | U32 : List Nat → Indices
  deriving DecidableEq

/-- The underlying index list. -/
def Indices.toList : Indices → List Nat
  | .U8 l => l
  | .U16 l => l
  | .U32 l => l

/-- `Positions`: cpu-side positions, single or double precision. -/
inductive Positions where
  | F32 : List Vec3 → Positions
  | F64 : List Vec3 → Positions
  deriving DecidableEq

/-- `Positions::to_f32`; the precision conversion is the identity in the exact
rational model. -/
def Positions.to_f32 : Positions → List Vec3
  | .F32 l => l
  | .F64 l => l

/-- `CpuMesh`: positions plus optional normals, uv coordinates and indices. -/
structure CpuMesh where
  positions : Positions
  normals : Option (List Vec3)
  uvs : Option (List Vec2)
  indices : Option Indices

/-- Modelled from the spec: `CpuMesh::validate` (not under the embedded
sources) checks that positions are non-empty and that normals, uvs and indices,
when present, are consistent with the position count. -/
def CpuMesh.validate (m : CpuMesh) : Bool :=
  let n := m.positions.to_f32.length
  n != 0 &&
  (match m.normals with
   | some normals => normals.length == n
   | none => true) &&
  (match m.uvs with
   | some uvs => uvs.length == n
   | none => true) &&
  (match m.indices with
   | some indices => indices.toList.all (fun i => i < n)
   | none => true)

/-- Modelled from the spec §7 error taxonomy: validation errors, GPU resource
allocation errors, missing mesh buffers (`CoreError::MissingMeshBuffer` in the
source) and uniform mismatches. -/
inductive CoreError where
  | MeshValidationError
  | BufferCreationError
  | UniformMismatch
  | MissingMeshBuffer : String → CoreError
  deriving DecidableEq

/-- Modelled from the spec: the graphics-context boundary decides whether each
GPU buffer operation succeeds.  The oracle is indexed by the call site inside
the operation being modelled (for `update`: 0 = start-position fill,
1 = start-velocity fill; for `new`: 0 = position buffer, 1 = normal buffer,
2 = index buffer, 3 = uv buffer, 4/5 = the two instance buffers). -/
structure GpuEnv where
  ok : Nat → Bool

/-- `ElementBuffer`: an uploaded index buffer, width preserved. -/
inductive ElementBuffer where
  | U8 : List Nat → ElementBuffer
  | U16 : List Nat → ElementBuffer
  | U32 : List Nat → ElementBuffer
  deriving DecidableEq

/-- Number of indices stored in the element buffer. -/
def ElementBuffer.count : ElementBuffer → Nat
  | .U8 l => l.length
  | .U16 l => l.length
  | .U32 l => l.length

/-- `ParticleData`: initial position and velocity of one particle. -/
structure ParticleData where
  start_position : Vec3
  start_velocity : Vec3
  deriving DecidableEq

/-- `Particles`: the particle-effect geometry.  Buffers are modelled by their
contents; the `context` handle of the source carries no observable state and
is omitted. -/
structure Particles where
  start_position_buffer : List Vec3
  start_velocity_buffer : List Vec3
  position_buffer : List Vec3
  normal_buffer : Option (List Vec3)
  uv_buffer : Option (List Vec2)
  index_buffer : Option ElementBuffer
  acceleration : Vec3
  instance_count : Nat
  transformation : Mat4
  normal_transformation : Mat4
  time : Scalar

/-- `Particles::new`: validates the mesh, uploads the position buffer, then
optionally normals, indices (width preserved) and uvs (v flipped to `1 - v`),
creates the two empty instance buffers, and initializes acceleration to the
Earth-gravity default with `instance_count = 0`.  Each buffer creation may
fail via the `GpuEnv` oracle; any failure aborts with no object produced. -/
def Particles.new (env : GpuEnv) (cpu_mesh : CpuMesh) : Except CoreError Particles :=
  if cpu_mesh.validate = false then .error .MeshValidationError
  else if env.ok 0 = false then .error .BufferCreationError
  else if cpu_mesh.normals.isSome && !env.ok 1 then .error .BufferCreationError
  else if cpu_mesh.indices.isSome && !env.ok 2 then .error .BufferCreationError
  else if cpu_mesh.uvs.isSome && !env.ok 3 then .error .BufferCreationError
  else if !env.ok 4 || !env.ok 5 then .error .BufferCreationError
  else .ok {
    position_buffer := cpu_mesh.positions.to_f32
    normal_buffer := cpu_mesh.normals
    index_buffer := cpu_mesh.indices.map fun indices =>
      match indices with
      | .U8 l => ElementBuffer.U8 l
      | .U16 l => ElementBuffer.U16 l
      | .U32 l => ElementBuffer.U32 l
    uv_buffer := cpu_mesh.uvs.map fun uvs => uvs.map fun uv => vec2 uv.x (1 - uv.y)
    start_position_buffer := []
    start_velocity_buffer := []
    acceleration := vec3 0 (-9.82) 0
    instance_count := 0
    transformation := Mat4.identity
    normal_transformation := Mat4.identity
    time := 0 }

/-- The de-interleaving loop of `Particles::update`: one pass over the data
pushing each particle's start position and start velocity onto two parallel
vectors. -/
def deinterleave (data : List ParticleData) : List Vec3 × List Vec3 :=
  data.foldl (fun acc particle =>
    (acc.1 ++ [particle.start_position], acc.2 ++ [particle.start_velocity])) ([], [])

/-- The `as u32` cast of the source applied to a `usize` value: truncation
modulo `2^32`. -/
def usizeToU32 (n : Nat) : Nat := n % 2 ^ 32

/-- `Particles::update`: de-interleaves the input, then fills the
start-position buffer, then the start-velocity buffer (each fill replacing the
whole contents, each fallible via the oracle), and finally sets
`instance_count` to `data.len() as u32` (the `u32` field truncates the length
modulo `2^32`).  The first component of the result is the state of the
receiver after the call (mutations before a failing fill persist, as with
`&mut self` and `?` in the source); the second is the returned error, if
any. -/
def Particles.update (env : GpuEnv) (p : Particles) (data : List ParticleData) :
    Particles × Option CoreError :=
  let start_position := (deinterleave data).1
  let start_velocity := (deinterleave data).2
  if env.ok 0 = false then (p, some .BufferCreationError)
  else
    let p1 := { p with start_position_buffer := start_position }
    if env.ok 1 = false then (p1, some .BufferCreationError)
    else ({ p1 with start_velocity_buffer := start_velocity,
                    instance_count := usizeToU32 data.length }, none)

/-- `Particles::set_transformation`: stores the transformation and recomputes
`normal_transformation` as the transposed inverse.  The source force-unwraps
the inversion; a non-invertible matrix therefore yields no defined result,
modelled as `none`. -/
def Particles.set_transformation (p : Particles) (transformation : Mat4) : Option Particles :=
  match Mat4.invert transformation with
  | some inverse => some { p with transformation := transformation,
                                  normal_transformation := inverse.transpose }
  | none => none

/-- De-interleaving with an arbitrary accumulator appends the mapped
projections. -/
theorem deinterleave_foldl (data : List ParticleData) (acc : List Vec3 × List Vec3) :
    data.foldl (fun acc particle =>
      (acc.1 ++ [particle.start_position], acc.2 ++ [particle.start_velocity])) acc =
    (acc.1 ++ data.map ParticleData.start_position,
     acc.2 ++ data.map ParticleData.start_velocity) := by
  induction data generalizing acc with
  | nil => simp
  | cons d ds ih => simp [ih]

/-- The de-interleaving loop produces exactly the two projections of the
input, in order. -/
theorem deinterleave_eq_map (data : List ParticleData) :
    deinterleave data =
      (data.map ParticleData.start_position, data.map ParticleData.start_velocity) := by
  simpa using deinterleave_foldl data ([], [])

/-- Substring search used to model Rust's `str::find(pat).is_some()`:
whether `pat` occurs at the head of the text. -/
def isPrefixAt : List Char → List Char → Bool
  | [], _ => true
  | _ :: _, [] => false
  | p :: ps, c :: cs => p == c && isPrefixAt ps cs

/-- Whether `pat` occurs anywhere in the text. -/
def findSub (pat : List Char) : List Char → Bool
  | [] => isPrefixAt pat []
  | c :: cs => isPrefixAt pat (c :: cs) || findSub pat cs

/-- `fragment_shader_source.find(pat).is_some()` of the source. -/
def strFind (s pat : String) : Bool := findSub pat.data s.data

/-- The three optional features of the generated vertex shader. -/
structure VertexShaderFlags where
  use_positions : Bool
  use_normals : Bool
  use_uvs : Bool
  deriving DecidableEq

/-- The attribute-relevant content of `Particles::vertex_shader_source`: which
optional inputs/outputs the generated vertex shader declares, decided by
textual presence of the corresponding declarations in the fragment shader
source (lines 121–123 of `particles.rs`).  The assembled GLSL text itself is
not modelled; only these flags are observable through the claims. -/
def Particles.vertex_shader_inputs (fragment_shader_source : String) : VertexShaderFlags :=
  { use_positions := strFind fragment_shader_source "in vec3 pos;"
    use_normals := strFind fragment_shader_source "in vec3 nor;"
    use_uvs := strFind fragment_shader_source "in vec2 uvs;" }

/-- Modelled from the spec: `Program::requires_attribute` of the
graphics-context boundary reports whether the program compiled from the
generated shader pair has the named attribute active.  The generated vertex
shader always declares and uses `position`, `start_position` and
`start_velocity`; it declares `normal` exactly when the fragment source
contains "in vec3 nor;" and `uv_coordinates` exactly when it contains
"in vec2 uvs;" (see `Particles.vertex_shader_inputs`). -/
def requires_attribute (fragment_shader_source name : String) : Bool :=
  if name == "position" then true
  else if name == "start_position" then true
  else if name == "start_velocity" then true
  else if name == "normal" then
    (Particles.vertex_shader_inputs fragment_shader_source).use_normals
  else if name == "uv_coordinates" then
    (Particles.vertex_shader_inputs fragment_shader_source).use_uvs
  else false

/-- Modelled from the spec: render states are the static blend/depth/cull
configuration a material supplies for the draw call; only carried through. -/
structure RenderStates where
  blend : Bool
  depth_test : Bool
  cull : Bool
  deriving DecidableEq

/-- The viewport of the camera, carried into draw calls. -/
structure Viewport where
  x : Int
  y : Int
  width : Nat
  height : Nat
  deriving DecidableEq

/-- Modelled from the spec §6: the camera boundary exposes view and projection
matrices and a viewport. -/
structure Camera where
  view : Mat4
  projection : Mat4
  viewport : Viewport

/-- Modelled from the spec §6: opaque light data; materials consume it when
generating fragment source and binding uniforms. -/
structure Light where
  contribution : String

/-- Modelled from the spec §4.2: the `Material` capability as a record of its
operations.  `use_uniforms` is observable only through whether it succeeds
(it fails exactly when the program does not declare a uniform the material
sets), so it is modelled by that success bit. -/
structure Material where
  fragment_shader_source : Bool → List Light → String
  use_uniforms_ok : Bool
  render_states : RenderStates
  is_transparent : Bool

/-- One GPU command issued during `render_with_material`, in order. -/
inductive GpuAction where
  | use_uniform : String → GpuAction
  | use_instance_attribute : String → GpuAction
  | use_vertex_attribute : String → GpuAction
  | draw_elements_instanced : RenderStates → Viewport → Nat → Nat → GpuAction
  | draw_arrays_instanced : RenderStates → Viewport → Nat → Nat → GpuAction
  deriving DecidableEq

/-- The attribute name bound by an action, when it binds one. -/
def GpuAction.attribute_name : GpuAction → Option String
  | .use_instance_attribute name => some name
  | .use_vertex_attribute name => some name
  | _ => none

/-- Whether the action is a draw call. -/
def GpuAction.is_draw : GpuAction → Bool
  | .draw_elements_instanced _ _ _ _ => true
  | .draw_arrays_instanced _ _ _ _ => true
  | _ => false

/-- Result of a render: the trace of issued GPU commands and the error that
aborted the remaining ones, if any. -/
abbrev RenderResult := List GpuAction × Option CoreError

/-- Sequencing of fallible render steps: an error aborts the continuation. -/
def andThenStep (st : RenderResult) (k : List GpuAction → RenderResult) : RenderResult :=
  match st with
  | (acts, some e) => (acts, some e)
  | (acts, none) => k acts

/-- The unconditional uniform and attribute binds at the start of
`Particles::render_with_material` (lines 184–194): the five uniforms, the two
per-instance attributes bound unconditionally, and the `position` vertex
attribute guarded by `requires_attribute`. -/
def Particles.base_actions (fragment_shader_source : String) : List GpuAction :=
  [.use_uniform "modelMatrix", .use_uniform "acceleration", .use_uniform "time",
   .use_uniform "projection", .use_uniform "view",
   .use_instance_attribute "start_position", .use_instance_attribute "start_velocity"] ++
  (if requires_attribute fragment_shader_source "position"
   then [.use_vertex_attribute "position"] else [])

/-- The uv-coordinate bind (lines 195–201): when the program requires
`uv_coordinates`, a missing uv buffer is `MissingMeshBuffer "uv coordinate"`,
otherwise the attribute is bound. -/
def Particles.uv_step (p : Particles) (fragment_shader_source : String)
    (acts : List GpuAction) : RenderResult :=
  if requires_attribute fragment_shader_source "uv_coordinates" then
    match p.uv_buffer with
    | none => (acts, some (.MissingMeshBuffer "uv coordinate"))
    | some _ => (acts ++ [.use_vertex_attribute "uv_coordinates"], none)
  else (acts, none)

/-- The normal bind (lines 202–209): when the program requires `normal`, a
missing normal buffer is `MissingMeshBuffer "normal"`, otherwise the
`normalMatrix` uniform and the `normal` attribute are bound. -/
def Particles.normal_step (p : Particles) (fragment_shader_source : String)
    (acts : List GpuAction) : RenderResult :=
  if requires_attribute fragment_shader_source "normal" then
    match p.normal_buffer with
    | none => (acts, some (.MissingMeshBuffer "normal"))
    | some _ => (acts ++ [.use_uniform "normalMatrix", .use_vertex_attribute "normal"], none)
  else (acts, none)

/-- The single draw call (lines 211–225): indexed and instanced when an index
buffer exists, otherwise non-indexed with the position buffer's vertex
count. -/
def Particles.draw_action (p : Particles) (render_states : RenderStates)
    (viewport : Viewport) : GpuAction :=
  match p.index_buffer with
  | some index_buffer =>
    .draw_elements_instanced render_states viewport index_buffer.count p.instance_count
  | none =>
    .draw_arrays_instanced render_states viewport p.position_buffer.length p.instance_count

/-- `Particles::render_with_material` (lines 171–228): generates the fragment
source, binds the material uniforms (whose failure aborts everything), then
the scene uniforms and attributes, and issues one draw call. -/
def Particles.render_with_material (p : Particles) (material : Material)
    (camera : Camera) (lights : List Light) : RenderResult :=
  let fragment_shader_source := material.fragment_shader_source false lights
  if material.use_uniforms_ok = false then ([], some .UniformMismatch)
  else
    andThenStep (p.uv_step fragment_shader_source
        (Particles.base_actions fragment_shader_source)) fun acts =>
      andThenStep (p.normal_step fragment_shader_source acts) fun acts2 =>
        (acts2 ++ [p.draw_action material.render_states camera.viewport], none)

/-- The `AxisAlignedBoundingBox` type of the core, modelled from the spec:
either the designated infinite sentinel, the empty box, or a finite box. -/
inductive AxisAlignedBoundingBox where
  | INFINITE
  | EMPTY
  | finite : Vec3 → Vec3 → AxisAlignedBoundingBox
  deriving DecidableEq

/-- `Particles::aabb` (lines 167–169): always the infinite sentinel. -/
def Particles.aabb (_p : Particles) : AxisAlignedBoundingBox := .INFINITE

/-- The mutating operations a `Particles` exposes after construction. -/
inductive ParticlesOp where
  | update : GpuEnv → List ParticleData → ParticlesOp
  | set_transformation : Mat4 → ParticlesOp

/-- Applying a sequence of mutating operations to a `Particles` state.  A
`set_transformation` with a non-invertible matrix has no defined result and is
modelled as leaving the state unchanged. -/
def Particles.applyOps (p : Particles) (ops : List ParticlesOp) : Particles :=
  ops.foldl (fun q op =>
    match op with
    | .update env data => (q.update env data).1
    | .set_transformation m => (q.set_transformation m).getD q) p

/-- The `Geometry` capability as a record of operations over a concrete
geometry type, mirroring the trait object used by `Gm`. -/
structure GeometryImpl (G : Type) where
  aabb : G → AxisAlignedBoundingBox
  render_with_material : G → Material → Camera → List Light → RenderResult

/-- The `Material` capability over a concrete material type: its erasure to
the dynamic `Material` record (`&dyn Material` in the source). -/
structure MaterialImpl (M : Type) where
  dyn : M → Material

/-- `Particles` implements `Geometry`. -/
def Particles.geometryImpl : GeometryImpl Particles :=
  { aabb := Particles.aabb
    render_with_material := Particles.render_with_material }

/-- `Gm<G, M>`: one geometry and one material, co-owned. -/
structure Gm (G M : Type) where
  geometry : G
  material : M

/-- `Gm::new`. -/
def Gm.new {G M : Type} (geometry : G) (material : M) : Gm G M :=
  { geometry := geometry, material := material }

/-- `Gm`'s `Geometry::aabb`: forwards to the owned geometry. -/
def Gm.aabb {G M : Type} (gi : GeometryImpl G) (x : Gm G M) : AxisAlignedBoundingBox :=
  gi.aabb x.geometry

/-- `Gm`'s `Geometry::render_with_material`: forwards to the owned geometry
with the externally supplied material. -/
def Gm.render_with_material {G M : Type} (gi : GeometryImpl G) (x : Gm G M)
    (material : Material) (camera : Camera) (lights : List Light) : RenderResult :=
  gi.render_with_material x.geometry material camera lights

/-- `Gm`'s `Object::render`: calls `render_with_material` with the owned
material. -/
def Gm.render {G M : Type} (gi : GeometryImpl G) (mi : MaterialImpl M) (x : Gm G M)
    (camera : Camera) (lights : List Light) : RenderResult :=
  Gm.render_with_material gi x (mi.dyn x.material) camera lights

/-- `Gm`'s `Object::is_transparent`: reported from the owned material. -/
def Gm.is_transparent {G M : Type} (mi : MaterialImpl M) (x : Gm G M) : Bool :=
  (mi.dyn x.material).is_transparent

/-- Helper: `update` never touches the vertex buffers, the transformations,
`time` or `acceleration`, whether it succeeds or fails. -/
theorem update_preserves_core_fields (env : GpuEnv) (p : Particles) (data : List ParticleData) :
    (p.update env data).1.position_buffer = p.position_buffer ∧
    (p.update env data).1.normal_buffer = p.normal_buffer ∧
    (p.update env data).1.uv_buffer = p.uv_buffer ∧
    (p.update env data).1.index_buffer = p.index_buffer ∧
    (p.update env data).1.transformation = p.transformation ∧
    (p.update env data).1.normal_transformation = p.normal_transformation ∧
    (p.update env data).1.time = p.time ∧
    (p.update env data).1.acceleration = p.acceleration := by
  cases h0 : env.ok 0 <;> cases h1 : env.ok 1 <;>
    simp [Particles.update, h0, h1]

/-- `requires_attribute` always holds for `position`. -/
theorem requires_attribute_position (fs : String) : requires_attribute fs "position" = true := rfl

/-- `requires_attribute` always holds for `start_position`. -/
theorem requires_attribute_start_position (fs : String) :
    requires_attribute fs "start_position" = true := rfl

/-- `requires_attribute` always holds for `start_velocity`. -/
theorem requires_attribute_start_velocity (fs : String) :
    requires_attribute fs "start_velocity" = true := rfl

/-- `requires_attribute` for `normal` is the generated shader's normal flag. -/
theorem requires_attribute_normal (fs : String) :
    requires_attribute fs "normal" = (Particles.vertex_shader_inputs fs).use_normals := rfl

/-- `requires_attribute` for `uv_coordinates` is the generated shader's uv flag. -/
theorem requires_attribute_uv (fs : String) :
    requires_attribute fs "uv_coordinates" = (Particles.vertex_shader_inputs fs).use_uvs := rfl

/-- A graphics environment in which every GPU operation succeeds. -/
def envAllOk : GpuEnv := ⟨fun _ => true⟩

/-- A graphics environment in which the first GPU operation succeeds and every
later one fails. -/
def envSecondFillFails : GpuEnv := ⟨fun n => n == 0⟩

/-- A concrete populated particle state used by the witnesses. -/
def particlesFixture : Particles :=
  { start_position_buffer := [vec3 9 9 9, vec3 8 8 8, vec3 7 7 7]
    start_velocity_buffer := [vec3 1 1 1, vec3 2 2 2, vec3 3 3 3]
    position_buffer := [vec3 0 0 0, vec3 1 0 0, vec3 0 1 0]
    normal_buffer := none
    uv_buffer := none
    index_buffer := none
    acceleration := vec3 0 (-9.82) 0
    instance_count := 3
    transformation := Mat4.identity
    normal_transformation := Mat4.identity
    time := 0 }

/-- A concrete freshly-constructed particle state (empty instance buffers). -/
def particlesFresh : Particles :=
  { particlesFixture with
    start_position_buffer := []
    start_velocity_buffer := []
    instance_count := 0 }

/-- Concrete update data of two particles. -/
def dataFixture : List ParticleData :=
  [⟨vec3 1 2 3, vec3 4 5 6⟩, ⟨vec3 7 8 9, vec3 10 11 12⟩]

/-- Update data one entry longer than `u32` can count. -/
def dataHuge : List ParticleData := List.replicate (2 ^ 32 + 1) ⟨vec3 0 0 0, vec3 0 0 0⟩

/-- C1 counterexample: a successful `update` with `2^32 + 1` particles leaves
`instance_count = 1`, not the input length — the `as u32` cast on
`data.len()` truncates modulo `2^32`. -/
theorem update_truncates_instance_count :
    (particlesFresh.update envAllOk dataHuge).2 = none ∧
    ¬ (particlesFresh.update envAllOk dataHuge).1.instance_count = dataHuge.length := by
  refine ⟨rfl, ?_⟩
  have hc : (particlesFresh.update envAllOk dataHuge).1.instance_count =
      usizeToU32 dataHuge.length := rfl
  have hl : dataHuge.length = 2 ^ 32 + 1 := by
    unfold dataHuge
    exact List.length_replicate ..
  rw [hc, hl]
  unfold usizeToU32
  decide

/-- C1 amended: a successful `update(data)` with `len(data) = k` leaves both
instance buffers holding exactly the de-interleaved entries of `data` in
order, replacing all previous contents, and `instance_count = k mod 2^32` —
which equals `k` whenever `k < 2^32`. -/
theorem update_replaces_instance_buffers (env : GpuEnv) (p : Particles)
    (data : List ParticleData) (h : (p.update env data).2 = none) :
    (p.update env data).1.start_position_buffer = data.map ParticleData.start_position ∧
    (p.update env data).1.start_velocity_buffer = data.map ParticleData.start_velocity ∧
    (p.update env data).1.instance_count = data.length % 2 ^ 32 ∧
    (data.length < 2 ^ 32 → (p.update env data).1.instance_count = data.length) := by
  cases h0 : env.ok 0 <;> cases h1 : env.ok 1 <;>
    simp [Particles.update, usizeToU32, h0, h1, deinterleave_eq_map, Nat.mod_eq_of_lt] at h ⊢

/-- Witness for the amended C1 at a concrete state previously holding three
particles, updated with two. -/
theorem update_replaces_instance_buffers_witness :
    (particlesFixture.update envAllOk dataFixture).2 = none ∧
    ((particlesFixture.update envAllOk dataFixture).1.start_position_buffer =
        dataFixture.map ParticleData.start_position ∧
     (particlesFixture.update envAllOk dataFixture).1.start_velocity_buffer =
        dataFixture.map ParticleData.start_velocity ∧
     (particlesFixture.update envAllOk dataFixture).1.instance_count =
        dataFixture.length % 2 ^ 32 ∧
     (dataFixture.length < 2 ^ 32 →
      (particlesFixture.update envAllOk dataFixture).1.instance_count =
        dataFixture.length)) :=
  ⟨rfl, update_replaces_instance_buffers envAllOk particlesFixture dataFixture rfl⟩

/-- C3 counterexample: when the start-velocity fill fails, `update` returns an
error but the start-position buffer already holds the new data, so the
observable state is not exactly as it was before the call. -/
theorem update_error_mutates_start_position :
    (particlesFresh.update envSecondFillFails dataFixture).2.isSome = true ∧
    ¬ (particlesFresh.update envSecondFillFails dataFixture).1.start_position_buffer =
        particlesFresh.start_position_buffer :=
  ⟨rfl, by decide⟩

/-- C3 amended: every error from `update` is returned immediately;
`instance_count` and the start-velocity buffer are unchanged on error, but the
start-position buffer is either unchanged (first fill failed) or already holds
the new data (second fill failed), so `update` is not all-or-nothing. -/
theorem update_error_partial_state (env : GpuEnv) (p : Particles)
    (data : List ParticleData) (e : CoreError)
    (h : (p.update env data).2 = some e) :
    (p.update env data).1.instance_count = p.instance_count ∧
    (p.update env data).1.start_velocity_buffer = p.start_velocity_buffer ∧
    ((p.update env data).1.start_position_buffer = p.start_position_buffer ∨
     (p.update env data).1.start_position_buffer = data.map ParticleData.start_position) := by
  cases h0 : env.ok 0 <;> cases h1 : env.ok 1 <;>
    simp [Particles.update, h0, h1, deinterleave_eq_map] at h ⊢

/-- Witness for the amended C3 at the concrete failing environment. -/
theorem update_error_partial_state_witness :
    (particlesFresh.update envSecondFillFails dataFixture).2 =
      some CoreError.BufferCreationError ∧
    ((particlesFresh.update envSecondFillFails dataFixture).1.instance_count =
        particlesFresh.instance_count ∧
     (particlesFresh.update envSecondFillFails dataFixture).1.start_velocity_buffer =
        particlesFresh.start_velocity_buffer ∧
     ((particlesFresh.update envSecondFillFails dataFixture).1.start_position_buffer =
        particlesFresh.start_position_buffer ∨
      (particlesFresh.update envSecondFillFails dataFixture).1.start_position_buffer =
        dataFixture.map ParticleData.start_position)) :=
  ⟨rfl, update_error_partial_state envSecondFillFails particlesFresh dataFixture
    CoreError.BufferCreationError rfl⟩

/-- C5: for an invertible transformation, `set_transformation` stores it and
recomputes `normal_transformation` as the transposed true inverse, and no
`update` call alters either field afterwards. -/
theorem set_transformation_sets_normal_transformation (p : Particles) (m : Mat4)
    (h : m.det ≠ 0) :
    ∃ q, p.set_transformation m = some q ∧
      q.transformation = m ∧
      q.normal_transformation = m⁻¹.transpose ∧
      m * q.normal_transformation.transpose = 1 ∧
      ∀ env data, ((q.update env data).1.transformation = q.transformation ∧
        (q.update env data).1.normal_transformation = q.normal_transformation) := by
  refine ⟨{ p with transformation := m, normal_transformation := (m⁻¹).transpose },
    ?_, rfl, rfl, ?_, ?_⟩
  · unfold Particles.set_transformation
    rw [Mat4.invert_spec m h]
  · rw [Matrix.transpose_transpose]
    exact Matrix.mul_nonsing_inv m (isUnit_iff_ne_zero.mpr h)
  · intro env data
    exact ⟨(update_preserves_core_fields env _ data).2.2.2.2.1,
           (update_preserves_core_fields env _ data).2.2.2.2.2.1⟩

/-- Witness for C5 at the identity transformation. -/
theorem set_transformation_sets_normal_transformation_witness :
    ∃ q, particlesFixture.set_transformation (1 : Mat4) = some q ∧
      q.transformation = (1 : Mat4) ∧
      q.normal_transformation = (1 : Mat4)⁻¹.transpose ∧
      (1 : Mat4) * q.normal_transformation.transpose = 1 ∧
      ∀ env data, ((q.update env data).1.transformation = q.transformation ∧
        (q.update env data).1.normal_transformation = q.normal_transformation) :=
  set_transformation_sets_normal_transformation particlesFixture 1 (by simp)

/-- C6: `Gm` delegates purely — `aabb` and `render_with_material` to the owned
geometry, `render` to `render_with_material` with the owned material,
`is_transparent` to the owned material, including after the owned material is
replaced in place. -/
theorem gm_delegates {G M : Type} (gi : GeometryImpl G) (mi : MaterialImpl M)
    (g : G) (m m2 : M) (material : Material) (camera : Camera) (lights : List Light) :
    Gm.aabb gi (Gm.new g m) = gi.aabb g ∧
    Gm.render_with_material gi (Gm.new g m) material camera lights =
      gi.render_with_material g material camera lights ∧
    Gm.render gi mi (Gm.new g m) camera lights =
      Gm.render_with_material gi (Gm.new g m) (mi.dyn m) camera lights ∧
    Gm.is_transparent mi (Gm.new g m) = (mi.dyn m).is_transparent ∧
    Gm.is_transparent mi { Gm.new g m with material := m2 } = (mi.dyn m2).is_transparent :=
  ⟨rfl, rfl, rfl, rfl, rfl⟩

/-- C7: on a valid mesh, with all GPU allocations succeeding, `new` succeeds
with the Earth-gravity acceleration default, `instance_count = 0`, and the uv
buffer holding `(u, 1 - v)` for each input uv in order. -/
theorem new_initializes_defaults (env : GpuEnv) (cpu_mesh : CpuMesh)
    (hok : ∀ n, env.ok n = true) (hv : cpu_mesh.validate = true) :
    ∃ p, Particles.new env cpu_mesh = .ok p ∧
      p.acceleration = vec3 0 (-9.82) 0 ∧
      p.instance_count = 0 ∧
      ∀ uvs, cpu_mesh.uvs = some uvs →
        p.uv_buffer = some (uvs.map fun uv => vec2 uv.x (1 - uv.y)) := by
  refine ⟨{ position_buffer := cpu_mesh.positions.to_f32
            normal_buffer := cpu_mesh.normals
            index_buffer := cpu_mesh.indices.map fun indices =>
              match indices with
              | .U8 l => ElementBuffer.U8 l
              | .U16 l => ElementBuffer.U16 l
              | .U32 l => ElementBuffer.U32 l
            uv_buffer := cpu_mesh.uvs.map fun uvs => uvs.map fun uv => vec2 uv.x (1 - uv.y)
            start_position_buffer := []
            start_velocity_buffer := []
            acceleration := vec3 0 (-9.82) 0
            instance_count := 0
            transformation := Mat4.identity
            normal_transformation := Mat4.identity
            time := 0 }, ?_, rfl, rfl, ?_⟩
  · simp [Particles.new, hv, hok 0, hok 1, hok 2, hok 3, hok 4, hok 5]
  · intro uvs huvs
    simp [huvs]

/-- Concrete valid mesh: three positions, three uvs, indices of 16-bit width. -/
def meshFixture : CpuMesh :=
  { positions := .F32 [vec3 0 0 0, vec3 1 0 0, vec3 0 1 0]
    normals := none
    uvs := some [vec2 (1/2) (1/4), vec2 0 0, vec2 1 1]
    indices := some (.U16 [0, 1, 2]) }

/-- Witness for C7 at the concrete mesh. -/
theorem new_initializes_defaults_witness :
    meshFixture.validate = true ∧
    (∃ p, Particles.new envAllOk meshFixture = .ok p ∧
      p.acceleration = vec3 0 (-9.82) 0 ∧
      p.instance_count = 0 ∧
      ∀ uvs, meshFixture.uvs = some uvs →
        p.uv_buffer = some (uvs.map fun uv => vec2 uv.x (1 - uv.y))) :=
  ⟨rfl, new_initializes_defaults envAllOk meshFixture (fun _ => rfl) rfl⟩

/-- C9: `aabb` returns the infinite sentinel in every reachable state — for
every starting state and every sequence of `update` / `set_transformation`
operations. -/
theorem aabb_infinite_in_every_state (p : Particles) (ops : List ParticlesOp) :
    (p.applyOps ops).aabb = AxisAlignedBoundingBox.INFINITE := rfl

/-- C10: `update` modifies only the two instance buffers and `instance_count`;
the vertex buffers, index buffer, transformation, normal transformation, time
and acceleration are unchanged whether it succeeds or fails. -/
theorem update_touches_only_instance_state (env : GpuEnv) (p : Particles)
    (data : List ParticleData) :
    (p.update env data).1.position_buffer = p.position_buffer ∧
    (p.update env data).1.normal_buffer = p.normal_buffer ∧
    (p.update env data).1.uv_buffer = p.uv_buffer ∧
    (p.update env data).1.index_buffer = p.index_buffer ∧
    (p.update env data).1.transformation = p.transformation ∧
    (p.update env data).1.normal_transformation = p.normal_transformation ∧
    (p.update env data).1.time = p.time ∧
    (p.update env data).1.acceleration = p.acceleration :=
  update_preserves_core_fields env p data

/-- C2: every attribute bound during `render_with_material` — per-vertex or
per-instance — is one the compiled program requires; no attribute is bound
when the program does not require it. -/
theorem render_binds_only_required_attributes (p : Particles) (material : Material)
    (camera : Camera) (lights : List Light) :
    (((p.render_with_material material camera lights).1.filterMap
        GpuAction.attribute_name).all
      (requires_attribute (material.fragment_shader_source false lights))) = true := by
  unfold Particles.render_with_material
  cases hu : material.use_uniforms_ok
  · simp [hu]
  · simp only [hu, Bool.true_eq_false, if_false]
    unfold andThenStep Particles.uv_step Particles.normal_step Particles.base_actions
    rw [requires_attribute_position]
    cases huv : requires_attribute (material.fragment_shader_source false lights)
        "uv_coordinates" <;>
    cases hn : requires_attribute (material.fragment_shader_source false lights)
        "normal" <;>
    cases hb1 : p.uv_buffer <;> cases hb2 : p.normal_buffer <;>
    cases hib : p.index_buffer <;>
      simp [Particles.draw_action, hib, GpuAction.attribute_name,
        requires_attribute_position, requires_attribute_start_position,
        requires_attribute_start_velocity, huv, hn]

/-- C8: the draw calls issued by `render_with_material` are exactly one on
success — indexed and instanced with the index count and the current
`instance_count` when an index buffer exists, otherwise non-indexed with the
position buffer's vertex count — and none on error. -/
theorem render_issues_single_draw (p : Particles) (material : Material)
    (camera : Camera) (lights : List Light) :
    ((p.render_with_material material camera lights).1.filter GpuAction.is_draw) =
      (if (p.render_with_material material camera lights).2.isSome then []
       else match p.index_buffer with
         | some index_buffer =>
           [GpuAction.draw_elements_instanced material.render_states camera.viewport
             index_buffer.count p.instance_count]
         | none =>
           [GpuAction.draw_arrays_instanced material.render_states camera.viewport
             p.position_buffer.length p.instance_count]) := by
  unfold Particles.render_with_material
  cases hu : material.use_uniforms_ok
  · simp [hu]
  · simp only [hu, Bool.true_eq_false, if_false]
    unfold andThenStep Particles.uv_step Particles.normal_step Particles.base_actions
    cases huv : requires_attribute (material.fragment_shader_source false lights)
        "uv_coordinates" <;>
    cases hn : requires_attribute (material.fragment_shader_source false lights)
        "normal" <;>
    cases hb1 : p.uv_buffer <;> cases hb2 : p.normal_buffer <;>
    cases hib : p.index_buffer <;>
    cases hpos : requires_attribute (material.fragment_shader_source false lights)
        "position" <;>
      simp [Particles.draw_action, hib, GpuAction.is_draw, huv, hn, hpos]

/-- C4: when the program requires `uv_coordinates` and the geometry has no uv
buffer, rendering fails with `MissingMeshBuffer "uv coordinate"`; analogously,
when the uv bind passes, a program requiring `normal` with no normal buffer
fails with `MissingMeshBuffer "normal"`. -/
theorem render_missing_buffer_errors (p : Particles) (material : Material)
    (camera : Camera) (lights : List Light)
    (huni : material.use_uniforms_ok = true) :
    ((Particles.vertex_shader_inputs
        (material.fragment_shader_source false lights)).use_uvs = true →
      p.uv_buffer = none →
      (p.render_with_material material camera lights).2 =
        some (CoreError.MissingMeshBuffer "uv coordinate")) ∧
    (((Particles.vertex_shader_inputs
        (material.fragment_shader_source false lights)).use_uvs = true →
        p.uv_buffer.isSome = true) →
      (Particles.vertex_shader_inputs
        (material.fragment_shader_source false lights)).use_normals = true →
      p.normal_buffer = none →
      (p.render_with_material material camera lights).2 =
        some (CoreError.MissingMeshBuffer "normal")) := by
  unfold Particles.render_with_material
  simp only [huni, Bool.true_eq_false, if_false]
  unfold andThenStep Particles.uv_step Particles.normal_step
  rw [requires_attribute_uv, requires_attribute_normal] at *
  constructor
  · intro huv hb
    simp [huv, hb]
  · intro hpresent hn hb
    cases huv : (Particles.vertex_shader_inputs
        (material.fragment_shader_source false lights)).use_uvs
    · simp [huv, hn, hb]
    · cases hbuv : p.uv_buffer with
      | none => rw [hbuv] at hpresent; simp [huv] at hpresent
      | some uvb => simp [huv, hbuv, hn, hb]

/-- A concrete camera. -/
def cameraFixture : Camera :=
  { view := Mat4.identity
    projection := Mat4.identity
    viewport := ⟨0, 0, 100, 100⟩ }

/-- A concrete material whose generated fragment source declares both a uv
input and a normal input. -/
def materialBoth : Material :=
  { fragment_shader_source := fun _ _ => "in vec2 uvs; in vec3 nor;"
    use_uniforms_ok := true
    render_states := ⟨false, true, false⟩
    is_transparent := false }

/-- A concrete particle state with a uv buffer but no normal buffer. -/
def particlesUvOnly : Particles :=
  { particlesFixture with
    uv_buffer := some [vec2 0 0, vec2 1 0, vec2 0 1]
    normal_buffer := none }

/-- Witness for C4: a geometry without a uv buffer fails with the
"uv coordinate" name, and one with uvs but no normals fails with "normal". -/
theorem render_missing_buffer_errors_witness :
    (particlesFixture.render_with_material materialBoth cameraFixture []).2 =
      some (CoreError.MissingMeshBuffer "uv coordinate") ∧
    (particlesUvOnly.render_with_material materialBoth cameraFixture []).2 =
      some (CoreError.MissingMeshBuffer "normal") :=
  ⟨(render_missing_buffer_errors particlesFixture materialBoth cameraFixture [] rfl).1
      (by decide) rfl,
   (render_missing_buffer_errors particlesUvOnly materialBoth cameraFixture [] rfl).2
      (fun _ => rfl) (by decide) rfl⟩

end ThreeD
